import Mathlib

/-!
Verification of the DB2 dialect layer of a Sequelize fork (ibmdb/sequelize).

The development shallowly embeds the dialect's pure decision logic:

* the DB2 data-type mapper (`lib/dialects/db2/data-types.js`, newer variant
  in the unnamed source file): `STRING.prototype.toSql`,
  `BOOLEAN.prototype._sanitize`, `DATE.prototype.toSql`,
  `DATE.prototype._stringify`, and the numeric-type constructors;
* the query error classifier `Query.prototype.formatError` and the benign
  error-code suppression in `Query.prototype._run`;
* the connection manager's `connect`-time error classification and
  `disconnect` (`lib/dialects/db2/connection-manager.js`).

JavaScript values are embedded explicitly: `undefined`/absent fields become
`Option`, JS truthiness is spelled out where it matters (empty string and
numeric `0` are falsy), and a code path that would raise a `TypeError`
is represented as `Option.none` on the result.
-/

/-! ## String utilities

JS `String.prototype.search(pat)` with a plain alphanumeric pattern and
`String.prototype.match(/literal/)` reduce to substring containment; we embed
them via character-list scanning. -/

/-- `prefixAt pat s` : `pat` is a prefix of `s` (character-exact). -/
def prefixAt : List Char → List Char → Bool
  | [], _ => true
  | _ :: _, [] => false
  | p :: ps, c :: cs => p == c && prefixAt ps cs

/-- `containsFrom pat s` : `pat` occurs as a contiguous substring of `s`. -/
def containsFrom (pat : List Char) : List Char → Bool
  | [] => prefixAt pat []
  | c :: rest => prefixAt pat (c :: rest) || containsFrom pat rest

/-- Substring containment on strings; embeds the JS idiom
`s.search("PAT") != -1` (and `s.match(/PAT/) !== null` for a literal
pattern without capture groups). -/
def strContains (s pat : String) : Bool :=
  containsFrom pat.data s.data

/-! ## Type mapper: `STRING.prototype.toSql`

From the DB2 `data-types.js` (newer variant, unnamed source file, lines
87-103).  The descriptor's `_length` is a number and `_binary` a flag, both
set by the inherited base `STRING` constructor. -/

/-- Embeds `STRING.prototype.toSql`: non-binary strings use `VARCHAR` up to
length 4000 and `CLOB` beyond; binary strings use `CHAR ... FOR BIT DATA`
below 255, `VARCHAR ... FOR BIT DATA` up to 4000, and `BLOB` beyond. -/
def STRING_toSql (length : Nat) (binary : Bool) : String :=
  if !binary then
    if length ≤ 4000 then
      "VARCHAR(" ++ toString length ++ ")"
    else
      "CLOB(" ++ toString length ++ ")"
  else
    if length < 255 then
      "CHAR(" ++ toString length ++ ") FOR BIT DATA"
    else if length ≤ 4000 then
      "VARCHAR(" ++ toString length ++ ") FOR BIT DATA"
    else
      "BLOB(" ++ toString length ++ ")"

/-! ## Type mapper: `BOOLEAN.prototype._sanitize`

From the DB2 `data-types.js` (newer variant, unnamed source file, lines
164-184).  Raw driver values are JS values; we embed the value universe the
sanitizer inspects. -/

/-- A JavaScript value as seen by the boolean sanitizer: `null`,
`undefined`, a number, a string, a boolean, or a byte buffer. -/
inductive JSValue
  | null
  | undefined
  | num (n : Int)
  | str (s : String)
  | boolean (b : Bool)
  | buf (bytes : List Nat)
deriving DecidableEq, Repr

/-- Embeds `BOOLEAN.prototype._sanitize`: a single-byte buffer is replaced
by its byte (a number); then the strings `"true"`/`"false"` and
`"\u0001"`/`"\u0000"`, and the numbers `1`/`0`, map to booleans; anything
else is returned unchanged. -/
def BOOLEAN_sanitize (value : JSValue) : JSValue :=
  match value with
  | .null => .null
  | .undefined => .undefined
  | v =>
    let v : JSValue :=
      match v with
      | .buf [b] => .num (Int.ofNat b)
      | x => x
    match v with
    | .str s =>
      let v1 : JSValue :=
        if s = "true" then .boolean true
        else if s = "false" then .boolean false
        else .str s
      match v1 with
      | .str s2 =>
        if s2 = "\x01" then .boolean true
        else if s2 = "\x00" then .boolean false
        else .str s2
      | x => x
    | .num n =>
      if n = 1 then .boolean true
      else if n = 0 then .boolean false
      else .num n
    | x => x

/-! ## Type mapper: `DATE.prototype.toSql` and `DATE.prototype._stringify`

From the DB2 `data-types.js` (newer variant, unnamed source file, lines
212-229).  `_length` is the fractional-seconds precision passed to `DATE(n)`
(the no-argument case behaves like `0`: both are falsy in
`this._length ? ... : ...`). -/

/-- The clamping performed at the top of `DATE.prototype.toSql`:
`if (_length < 0) _length = 0; if (_length > 6) _length = 6`. -/
def clampFsp (length : Int) : Int :=
  if length < 0 then 0 else if length > 6 then 6 else length

/-- Embeds `DATE.prototype.toSql`: after clamping, `TIMESTAMP(n)` when the
clamped length is truthy (non-zero), plain `TIMESTAMP` otherwise. -/
def DATE_toSql (length : Int) : String :=
  let l := clampFsp length
  if l ≠ 0 then "TIMESTAMP(" ++ toString l ++ ")" else "TIMESTAMP"

/-- The character list of the format string built by
`DATE.prototype._stringify`: the fixed base pattern, plus a `.` and one
`S` per fractional digit (the loop runs while `i < _length && i < 6`)
when `_length > 0`. -/
def DATE_formatChars (length : Int) : List Char :=
  if 0 < length then
    "YYYY-MM-DD HH:mm:ss".data ++ '.' :: List.replicate (min length 6).toNat 'S'
  else
    "YYYY-MM-DD HH:mm:ss".data

/-- The moment format string handed to `date.format(...)` by
`DATE.prototype._stringify`. -/
def DATE_formatString (length : Int) : String :=
  String.mk (DATE_formatChars length)

/-! ## Type mapper: numeric type constructors

From the DB2 `data-types.js` (newer variant, unnamed source file, lines
257-388).  The inherited base constructors record `length`, `decimals`,
`unsigned` and `zerofill` on the descriptor (`this._length`,
`this.options.length`, ... — `_x` and `options.x` always move together in
this code, so one field embeds both).  Absent options are `Option.none`;
JS truthiness makes `0` falsy. -/

/-- A numeric column descriptor after construction. -/
structure NumericDescriptor where
  length : Option Nat
  decimals : Option Nat
  unsigned : Bool
  zerofill : Bool
deriving DecidableEq, Repr

/-- JS truthiness of an optional numeric option: absent and `0` are falsy. -/
def truthyNat : Option Nat → Bool
  | none => false
  | some n => n != 0

/-- The shared body of the `INTEGER`, `TINYINT`, `SMALLINT`, `BIGINT`,
`REAL` and `DOUBLE` dialect constructors: when any of `_length`,
`options.length`, `_unsigned`, `_zerofill` is truthy, all four are cleared
(with a warning); `decimals` is not touched by these constructors. -/
def clearNumericOptions (d : NumericDescriptor) : NumericDescriptor :=
  if truthyNat d.length || d.unsigned || d.zerofill then
    { d with length := none, unsigned := false, zerofill := false }
  else d

/-- Embeds the dialect `INTEGER` constructor (options recorded by the base
constructor, then cleared). -/
def INTEGER_ctor (d : NumericDescriptor) : NumericDescriptor :=
  clearNumericOptions d

/-- Embeds the dialect `TINYINT` constructor. -/
def TINYINT_ctor (d : NumericDescriptor) : NumericDescriptor :=
  clearNumericOptions d

/-- Embeds the dialect `SMALLINT` constructor. -/
def SMALLINT_ctor (d : NumericDescriptor) : NumericDescriptor :=
  clearNumericOptions d

/-- Embeds the dialect `BIGINT` constructor. -/
def BIGINT_ctor (d : NumericDescriptor) : NumericDescriptor :=
  clearNumericOptions d

/-- Embeds the dialect `REAL` constructor. -/
def REAL_ctor (d : NumericDescriptor) : NumericDescriptor :=
  clearNumericOptions d

/-- Embeds the dialect `DOUBLE` constructor. -/
def DOUBLE_ctor (d : NumericDescriptor) : NumericDescriptor :=
  clearNumericOptions d

/-- Embeds the dialect `FLOAT` constructor.  Note what the source does:
when `_decimals` is truthy it clears `_length` and `options.length` but
leaves `_decimals` itself set (its own comment says "If decimals are
provided remove these and print a warning"); `unsigned` and `zerofill`
are cleared individually. -/
def FLOAT_ctor (d : NumericDescriptor) : NumericDescriptor :=
  let d := if truthyNat d.decimals then { d with length := none } else d
  let d := if d.unsigned then { d with unsigned := false } else d
  let d := if d.zerofill then { d with zerofill := false } else d
  d

/-! ## Connection manager: `connect`-time error classification

From `lib/dialects/db2/connection-manager.js`, lines 64-109.  The pooled
and unpooled paths run the identical classification:
`err.message && err.message.search("SQL30081N") != -1` selects
`ConnectionRefusedError`, everything else `ConnectionError`. -/

/-- A native error reported by the driver's `open` callback; its `message`
property may be absent. -/
structure ConnectNativeError where
  message : Option String
deriving DecidableEq, Repr

/-- The two connect-time rejection variants. -/
inductive ConnectErrorKind
  | refused
  | generic
deriving DecidableEq, Repr

/-- Embeds the classification inside `connect`'s open callback: a
`ConnectionRefusedError` exactly when the message is present (truthy) and
contains `SQL30081N`, a generic `ConnectionError` otherwise. -/
def classifyConnectError (err : ConnectNativeError) : ConnectErrorKind :=
  match err.message with
  | some m => if strContains m "SQL30081N" then .refused else .generic
  | none => .generic

/-! ## Connection manager: `disconnect`

From `lib/dialects/db2/connection-manager.js`, lines 111-127.
`disconnect` unwraps the lock, calls the native `close` only when the
connection reports `connected`, hands any close error to the debug logger
only, and returns `Promise.resolve()` unconditionally (it does not wait for
the close callback).  The native driver's `close` marks the handle as no
longer connected (driver contract; the handle state itself lives outside
this repository). -/

/-- The native connection handle state `disconnect` inspects. -/
structure Db2Connection where
  connected : Bool
deriving DecidableEq, Repr

/-- A resource lock wrapping exactly one native connection;
`unwrap` returns the wrapped handle. -/
structure ResourceLock where
  connection : Db2Connection
deriving DecidableEq, Repr

/-- The settled state of the promise `disconnect` returns. -/
inductive PromiseState
  | resolved
  | rejected
deriving DecidableEq, Repr

/-- Everything observable about one `disconnect` call: the connection state
afterwards, how many native `close` calls were issued, how the returned
promise settles, and what (if anything) was handed to the debug logger. -/
structure DisconnectOutcome where
  connection : Db2Connection
  nativeCloseCalls : Nat
  promise : PromiseState
  loggedError : Option String
deriving DecidableEq, Repr

/-- Embeds `disconnect`.  `closeErr` is the error (if any) the native
`close` callback would report; it is only logged, never propagated. -/
def disconnect (lock : ResourceLock) (closeErr : Option String) : DisconnectOutcome :=
  let connection := lock.connection
  if connection.connected then
    { connection := { connected := false },
      nativeCloseCalls := 1,
      promise := .resolved,
      loggedError := closeErr }
  else
    { connection := connection,
      nativeCloseCalls := 0,
      promise := .resolved,
      loggedError := none }

/-! ## Error translator: `Query.prototype.formatError`

From the query source (unnamed source file, lines 274-337).

Faithfulness notes on the regex-based matching:

* branch 1 matches `/SQL0803N/` — a regex with **no capture groups**, so
  `match[1]` and `match[4]` are always `undefined`; the embedding records
  them as `none` and keeps the source's uses of them (the unique-key lookup
  coerces the `undefined` key to the string `"undefined"`, as JS property
  access does);
* branch 2 matches the long `SQL0532N ... relationship "(...)" restricts
  the deletion` pattern (one capture group), or `/SQL0530N/`, or
  `/SQL0531N/`; the capture is embedded with lazy-match semantics (JS's
  greedy `(.*)` differs only in which middle is captured, not in whether a
  match exists; `.` does not cross a newline, which the embedding checks);
* branch 3 matches `/Could not drop constraint. See previous errors./` —
  the two unescaped dots are regex wildcards, matching any character but a
  line terminator, and the embedding treats them as such — and then reads
  `err.sql.match(...)`: when `err.sql` is absent this is a JS `TypeError`,
  embedded as result `none`; the bracket captures embed
  `/(?:constraint|index) \[(.+?)\]/i` and `/table \[(.+?)\]/i`
  (case-insensitive, lazy, at least one character, no newline). -/

/-- A native error object as `formatError` sees it: the driver's message,
plus the `sql` property that `_run`'s execute path assigns before calling
`formatError` (absent on other paths, e.g. a `prepare` failure). -/
structure NativeError where
  message : String
  sql : Option String
deriving DecidableEq, Repr

/-- A unique key declared on the model: optional custom violation message
and the key's field list. -/
structure UniqueKeyT where
  msg : Option String
  fields : List String
deriving DecidableEq, Repr

/-- The slice of a model `formatError` consults: its `uniqueKeys` map. -/
structure ModelT where
  uniqueKeys : List (String × UniqueKeyT)
deriving DecidableEq, Repr

/-- The canonical error variants `formatError` can produce.  (The
`ValidationErrorItem` list built alongside `fields` carries one item per
field plus presentation metadata; no claim depends on it, so it is not
recorded here.) -/
inductive SequelizeError
  | uniqueConstraint (message : String) (fields : List (String × String))
      (parent : NativeError)
  | foreignKeyConstraint (index : Option String) (parent : NativeError)
  | unknownConstraint (message : Option String) (constraint : Option String)
      (table : Option String) (parent : NativeError)
  | databaseError (parent : NativeError)
deriving DecidableEq, Repr

/-- The first capture of the `SQL0532N` foreign-key pattern. -/
def sql0532pre : String :=
  "SQL0532N  A parent row cannot be deleted because the relationship \""

/-- The tail of the `SQL0532N` foreign-key pattern, after the capture. -/
def sql0532suf : String :=
  "\" restricts the deletion"

/-- `takeUntilPat pat s`: the characters of `s` before the first occurrence
of `pat`, or `none` when `pat` does not occur. -/
def takeUntilPat (pat : List Char) : List Char → Option (List Char)
  | [] => if prefixAt pat [] then some [] else none
  | c :: rest =>
    if prefixAt pat (c :: rest) then some []
    else (takeUntilPat pat rest).map (c :: ·)

/-- Scan for the `SQL0532N` pattern: at the first position where the fixed
leading text matches and the closing text follows on the same line, return
the captured relationship name. -/
def sql0532From (pre suf : List Char) : List Char → Option (List Char)
  | [] => none
  | c :: rest =>
    if prefixAt pre (c :: rest) then
      match takeUntilPat suf ((c :: rest).drop pre.length) with
      | some mid => if mid.contains '\n' then sql0532From pre suf rest else some mid
      | none => sql0532From pre suf rest
    else sql0532From pre suf rest

/-- The capture group of
`err.message.match(/SQL0532N  A parent row ... "(.*)" restricts the deletion/)`
(`none` when the pattern does not match). -/
def sql0532Capture (msg : String) : Option String :=
  (sql0532From sql0532pre.data sql0532suf.data msg.data).map String.mk

/-- Case-insensitive character comparison (the JS `i` regex flag). -/
def lowerEq (a b : Char) : Bool :=
  a.toLower == b.toLower

/-- Case-insensitive prefix test. -/
def prefixAtCI : List Char → List Char → Bool
  | [], _ => true
  | _ :: _, [] => false
  | p :: ps, c :: cs => lowerEq p c && prefixAtCI ps cs

/-- The characters before the first `]`, or `none` when no `]` follows. -/
def takeUntilClose : List Char → Option (List Char)
  | [] => none
  | c :: rest =>
    if c == ']' then some []
    else (takeUntilClose rest).map (c :: ·)

/-- Scan for `key [capture]` (case-insensitive, lazy, non-empty capture
without a newline) for any of the given keys, leftmost position first. -/
def bracketCaptureFrom (keys : List (List Char)) : List Char → Option (List Char)
  | [] => none
  | c :: rest =>
    match keys.find? (fun k => prefixAtCI k (c :: rest)) with
    | some k =>
      match takeUntilClose ((c :: rest).drop k.length) with
      | some mid =>
        if mid.isEmpty || mid.contains '\n' then bracketCaptureFrom keys rest
        else some mid
      | none => bracketCaptureFrom keys rest
    | none => bracketCaptureFrom keys rest

/-- The capture of `sql.match(/(?:key1|key2) \[(.+?)\]/i)`. -/
def matchKeyBracket (keys : List String) (s : String) : Option String :=
  (bracketCaptureFrom (keys.map fun k => (k ++ " [").data) s.data).map String.mk

/-- The source text of the trigger regex of `formatError`'s third branch,
`/Could not drop constraint. See previous errors./`.  Its two dots are
unescaped, so in the regex they are wildcards, not literal periods. -/
def dropConstraintMsg : String :=
  "Could not drop constraint. See previous errors."

/-- One element of a group-free JS regex: a literal character or the
wildcard `.`. -/
inductive PatChar
  | lit (c : Char)
  | any
deriving DecidableEq, Repr

/-- JS line terminators: the characters the regex wildcard `.` does not
match. -/
def isLineTerm (c : Char) : Bool :=
  c == '\n' || c == '\r' || c == Char.ofNat 0x2028 || c == Char.ofNat 0x2029

/-- `patMatchAt pat s` : the pattern matches a prefix of `s` (a literal
matches itself, the wildcard any character but a line terminator). -/
def patMatchAt : List PatChar → List Char → Bool
  | [], _ => true
  | _ :: _, [] => false
  | .lit p :: ps, c :: cs => p == c && patMatchAt ps cs
  | .any :: ps, c :: cs => !isLineTerm c && patMatchAt ps cs

/-- `patSearch pat s` : the pattern matches at some position of `s`; embeds
`s.match(regex) !== null` for a regex of literals and wildcard dots. -/
def patSearch (pat : List PatChar) : List Char → Bool
  | [] => patMatchAt pat []
  | c :: rest => patMatchAt pat (c :: rest) || patSearch pat rest

/-- The trigger regex of `formatError`'s third branch: each character of
its source text is a literal, except the unescaped dots, which are
wildcards. -/
def dropConstraintPat : List PatChar :=
  dropConstraintMsg.data.map fun c => if c == '.' then .any else .lit c

/-- Embeds
`err.message.match(/Could not drop constraint. See previous errors./)`
as a boolean (the regex has no capture groups). -/
def matchesDropConstraint (msg : String) : Bool :=
  patSearch dropConstraintPat msg.data

/-- `match[1]` of the foreign-key alternation: the `SQL0532N` capture if
that alternative matched, `some none` (matched, no capture) for
`SQL0530N`/`SQL0531N`, and `none` when none of the three matched. -/
def fkIndex (msg : String) : Option (Option String) :=
  match sql0532Capture msg with
  | some cap => some (some cap)
  | none =>
    if strContains msg "SQL0530N" || strContains msg "SQL0531N" then some none
    else none

/-- Embeds `Query.prototype.formatError`.  `model` is `this.model`.
Returns `none` exactly where the JS code would throw a `TypeError`
(reading `err.sql.match` with `err.sql` absent). -/
def formatError (model : Option ModelT) (err : NativeError) : Option SequelizeError :=
  if strContains err.message "SQL0803N" then
    -- `/SQL0803N/` has no capture groups: match[1] and match[4] are undefined.
    let m1 : Option String := none
    let m4 : Option String := none
    let uniqueKey : Option UniqueKeyT :=
      model.bind fun md => md.uniqueKeys.lookup (m1.getD "undefined")
    let message : String :=
      match uniqueKey with
      | some uk =>
        match uk.msg with
        | some s => if s = "" then err.message else s
        | none => err.message
      | none => err.message
    let fields : List (String × String) :=
      match m4 with
      | some v =>
        let values := (v.splitOn ",").map String.trim
        match uniqueKey with
        | some uk => uk.fields.zip values
        | none => [(m1.getD "undefined", v)]
      | none => []
    some (.uniqueConstraint message fields err)
  else
    match fkIndex err.message with
    | some idx => some (.foreignKeyConstraint idx err)
    | none =>
      if matchesDropConstraint err.message then
        match err.sql with
        | none => none
        | some sq =>
          some (.unknownConstraint none
            (matchKeyBracket ["constraint", "index"] sq)
            (matchKeyBracket ["table"] sq) err)
      else
        some (.databaseError err)

/-! ## Query executor: benign-code suppression in `_run`

From the query source (unnamed source file, lines 98-155): the
`stmt.execute` callback.  A native error whose (truthy) message contains
one of `SQL0204N`, `SQL0478N`, `SQL0601N`, `SQL0605W` is nulled out; a
surviving error gets `err.sql = sql` and the promise rejects with
`formatError(err)`; otherwise all rows are fetched (none when the driver
passed no result object), cell values are parsed per column, and the
promise resolves. -/

/-- A result row: column name to raw cell value. -/
def Row : Type := List (String × String)

/-- How the `_run` promise settles for an ordinary statement. -/
inductive RunOutcome
  | resolved (data : List Row) (rowCount : Nat)
  | rejected (e : Option SequelizeError)

/-- Embeds the `stmt.execute` callback of `_run`.  `parse` stands for the
per-column parser application taken from the parser store (applied only on
the non-empty-data path, as in the source); `err` is the native error's
message, `result` the rows the driver's result object would yield. -/
def executeCallback (parse : Row → Row) (model : Option ModelT) (sql : String)
    (err : Option String) (result : Option (List Row)) : RunOutcome :=
  let err : Option String :=
    match err with
    | some m =>
      if m = "" then some m
      else if strContains m "SQL0204N" || strContains m "SQL0478N"
          || strContains m "SQL0601N" || strContains m "SQL0605W" then none
      else some m
    | none => none
  match err with
  | some m => .rejected (formatError model { message := m, sql := some sql })
  | none =>
    let data := match result with
      | some rows => rows
      | none => []
    if 0 < data.length then .resolved (data.map parse) data.length
    else .resolved data 0

/-! ## Claims -/

/-- C7: Boolean values round-trip on read: the sanitizer maps the numbers
`0`/`1`, the strings `"true"`/`"false"` and `"\u0000"`/`"\u0001"`, and a
single-byte buffer holding `0` or `1`, to the corresponding boolean. -/
theorem boolean_sanitize_roundtrip :
    BOOLEAN_sanitize (.num 0) = .boolean false ∧
    BOOLEAN_sanitize (.num 1) = .boolean true ∧
    BOOLEAN_sanitize (.str "false") = .boolean false ∧
    BOOLEAN_sanitize (.str "true") = .boolean true ∧
    BOOLEAN_sanitize (.str "\x00") = .boolean false ∧
    BOOLEAN_sanitize (.str "\x01") = .boolean true ∧
    BOOLEAN_sanitize (.buf [0]) = .boolean false ∧
    BOOLEAN_sanitize (.buf [1]) = .boolean true := by
  decide

/-- C8 (code bug): constructing `FLOAT(11, 2)` does not clear the
unsupported `decimals` option: the constructor clears `_length` and
`options.length` instead and leaves `_decimals = 2` on the descriptor,
contradicting both the claim and the constructor's own comment
("If decimals are provided remove these"). -/
theorem float_ctor_keeps_decimals :
    FLOAT_ctor { length := some 11, decimals := some 2,
                 unsigned := false, zerofill := false } =
      { length := none, decimals := some 2,
        unsigned := false, zerofill := false } := by
  decide

/-- C2 (code bug): a duplicate-key error (message containing `SQL0803N`)
is classified as a unique-constraint error, but its `fields` mapping is
empty: the regex `/SQL0803N/` has no capture groups, so the extraction
code reading `match[1]`/`match[4]` never fires. -/
theorem formatError_unique_fields_empty :
    formatError none
      { message := "SQL0803N  One or more values in the INSERT statement, UPDATE statement, or foreign key update caused by a DELETE statement are not valid.  SQLSTATE=23505",
        sql := some "INSERT INTO \"Users\" (\"id\",\"username\") VALUES (1, 'jan')" } =
      some (.uniqueConstraint
        "SQL0803N  One or more values in the INSERT statement, UPDATE statement, or foreign key update caused by a DELETE statement are not valid.  SQLSTATE=23505"
        []
        { message := "SQL0803N  One or more values in the INSERT statement, UPDATE statement, or foreign key update caused by a DELETE statement are not valid.  SQLSTATE=23505",
          sql := some "INSERT INTO \"Users\" (\"id\",\"username\") VALUES (1, 'jan')" }) := by
  decide

/-- C1 counterexample: `formatError` is not total on arbitrary error
objects: on an error whose message matches the UnknownConstraint trigger
regex but which carries no `sql` property (as on the `prepare`-failure and
transaction paths, which never assign `err.sql`), the JS code throws a
`TypeError` reading `err.sql.match` — embedded as result `none`.  The
second conjunct exercises the regex's wildcard dot: a comma in place of
the first period still triggers the throwing branch. -/
theorem formatError_throws_on_missing_sql :
    formatError none { message := dropConstraintMsg, sql := none } = none ∧
    formatError none
      { message := "Could not drop constraint, See previous errors.",
        sql := none } = none := by
  decide

/-- C1 (amended): for every error object that either carries the `sql`
text (as the execute path always assigns before calling `formatError`) or
whose message does not match the UnknownConstraint trigger regex
`/Could not drop constraint. See previous errors./` (its unescaped dots
being wildcards), `formatError` returns exactly one canonical variant —
and when no pattern matches at all, that variant is the catch-all
`DatabaseError`. -/
theorem formatError_total_amended (model : Option ModelT) (err : NativeError)
    (h : err.sql.isSome = true ∨ matchesDropConstraint err.message = false) :
    (∃ e, formatError model err = some e) ∧
    (strContains err.message "SQL0803N" = false →
      fkIndex err.message = none →
      matchesDropConstraint err.message = false →
      formatError model err = some (.databaseError err)) := by
  refine ⟨?_, ?_⟩
  · rw [← Option.isSome_iff_exists]
    by_cases h1 : strContains err.message "SQL0803N" = true
    · simp [formatError, h1]
    · cases hf : fkIndex err.message with
      | some idx => simp [formatError, h1, hf]
      | none =>
        by_cases h3 : matchesDropConstraint err.message = true
        · rcases h with hs | hno
          · cases hsql : err.sql with
            | none => rw [hsql] at hs; simp at hs
            | some sq => simp [formatError, h1, hf, h3, hsql]
          · rw [hno] at h3; exact absurd h3 (by simp)
        · simp [formatError, h1, hf, h3]
  · intro h1 h2 h3
    simp [formatError, h1, h2, h3]

/-- Witness for `formatError_total_amended` at a concrete unclassified
error: the result is the catch-all variant. -/
theorem formatError_total_amended_w :
    ∃ e, formatError none { message := "SQL0999N  boom", sql := none } = some e :=
  (formatError_total_amended none { message := "SQL0999N  boom", sql := none }
    (Or.inr (by decide))).1

/-- C3: when the native driver reports an error whose message contains one
of the benign codes `SQL0204N`, `SQL0478N`, `SQL0601N`, `SQL0605W` (and,
as the driver then does, passes no result object), the execution does not
reject: the error is suppressed and the promise resolves with an empty
result. -/
theorem benign_codes_resolve_empty (parse : Row → Row) (model : Option ModelT)
    (sql : String) (m : String)
    (h : strContains m "SQL0204N" = true ∨ strContains m "SQL0478N" = true ∨
         strContains m "SQL0601N" = true ∨ strContains m "SQL0605W" = true) :
    executeCallback parse model sql (some m) none = .resolved [] 0 := by
  have hne : m ≠ "" := by
    rintro rfl
    rcases h with h | h | h | h <;> exact absurd h (by decide)
  unfold executeCallback
  rcases h with h | h | h | h <;> simp [hne, h]

/-- Witness for `benign_codes_resolve_empty`: a concrete drop-table
failure with `SQL0204N` resolves as success with no rows. -/
theorem benign_codes_resolve_empty_w :
    executeCallback id none "DROP TABLE \"USERS\""
      (some "[IBM][CLI Driver][DB2/LINUXX8664] SQL0204N  \"USERS\" is an undefined name.  SQLSTATE=42704")
      none = .resolved [] 0 :=
  benign_codes_resolve_empty id none "DROP TABLE \"USERS\""
    "[IBM][CLI Driver][DB2/LINUXX8664] SQL0204N  \"USERS\" is an undefined name.  SQLSTATE=42704"
    (Or.inl (by decide))

/-- C4: a connect-time failure is classified as `ConnectionRefusedError`
exactly when the native error's message is present and contains
`SQL30081N`, and as a generic `ConnectionError` in every other case; the
two cases are mutually exclusive. -/
theorem connect_error_classification (err : ConnectNativeError) :
    (classifyConnectError err = .refused ↔
      ∃ m, err.message = some m ∧ strContains m "SQL30081N" = true) ∧
    (classifyConnectError err = .generic ↔
      ¬ ∃ m, err.message = some m ∧ strContains m "SQL30081N" = true) := by
  obtain ⟨msg⟩ := err
  cases msg with
  | none => simp [classifyConnectError]
  | some m =>
    by_cases hc : strContains m "SQL30081N" = true
    · simp [classifyConnectError, hc]
    · simp [classifyConnectError, hc]

/-- Witness for `connect_error_classification`: a concrete communication
failure message containing `SQL30081N` is classified as refused. -/
theorem connect_error_classification_w :
    classifyConnectError
      { message := some "SQL30081N  A communication error has been detected. SQLSTATE=08001" } =
      .refused :=
  (connect_error_classification
    { message := some "SQL30081N  A communication error has been detected. SQLSTATE=08001" }).1.mpr
    ⟨_, rfl, by decide⟩

/-- C5: `disconnect` is idempotent: on a lock whose connection is already
closed it issues no native close call, leaves the connection untouched,
logs nothing, and returns a resolved promise; consequently a second
`disconnect` after any first one is such a no-op. -/
theorem disconnect_idempotent_on_closed (lock : ResourceLock) (e1 e2 : Option String) :
    (lock.connection.connected = false →
      disconnect lock e1 =
        { connection := lock.connection, nativeCloseCalls := 0,
          promise := .resolved, loggedError := none }) ∧
    disconnect { connection := (disconnect lock e1).connection } e2 =
      { connection := (disconnect lock e1).connection, nativeCloseCalls := 0,
        promise := .resolved, loggedError := none } := by
  obtain ⟨⟨c⟩⟩ := lock
  constructor
  · intro h
    simp only at h
    simp [disconnect, h]
  · cases c <;> simp [disconnect]

/-- Witness for `disconnect_idempotent_on_closed` on a concrete closed
connection. -/
theorem disconnect_idempotent_on_closed_w :
    disconnect { connection := { connected := false } } (some "boom") =
      { connection := { connected := false }, nativeCloseCalls := 0,
        promise := .resolved, loggedError := none } :=
  (disconnect_idempotent_on_closed
    { connection := { connected := false } } (some "boom") none).1 rfl

/-- C10: `disconnect` never rejects: whatever the connection state and
whatever error the native close callback reports, the returned promise is
resolved (the close error is only handed to the debug logger). -/
theorem disconnect_never_rejects (lock : ResourceLock) (closeErr : Option String) :
    (disconnect lock closeErr).promise = PromiseState.resolved := by
  obtain ⟨⟨c⟩⟩ := lock
  cases c <;> simp [disconnect]

/-- C6: string column type mapping is length-dependent with fixed
thresholds: non-binary descriptors map to `VARCHAR(n)` up to length 4000
and `CLOB(n)` beyond; binary descriptors map to `CHAR(n) FOR BIT DATA`
below 255, `VARCHAR(n) FOR BIT DATA` up to 4000, and `BLOB(n)` above. -/
theorem string_toSql_thresholds (length : Nat) :
    (length ≤ 4000 → STRING_toSql length false = "VARCHAR(" ++ toString length ++ ")") ∧
    (4000 < length → STRING_toSql length false = "CLOB(" ++ toString length ++ ")") ∧
    (length < 255 → STRING_toSql length true = "CHAR(" ++ toString length ++ ") FOR BIT DATA") ∧
    (255 ≤ length → length ≤ 4000 →
      STRING_toSql length true = "VARCHAR(" ++ toString length ++ ") FOR BIT DATA") ∧
    (4000 < length → STRING_toSql length true = "BLOB(" ++ toString length ++ ")") := by
  refine ⟨fun h => ?_, fun h => ?_, fun h => ?_, fun h1 h2 => ?_, fun h => ?_⟩
  · simp [STRING_toSql, h]
  · simp [STRING_toSql, show ¬(length ≤ 4000) from by omega]
  · simp [STRING_toSql, h]
  · simp [STRING_toSql, h2, show ¬(length < 255) from by omega]
  · simp [STRING_toSql, show ¬(length < 255) from by omega,
      show ¬(length ≤ 4000) from by omega]

/-- Witness for `string_toSql_thresholds`: a binary string of length 300
maps to `VARCHAR(300) FOR BIT DATA`. -/
theorem string_toSql_thresholds_w :
    STRING_toSql 300 true = "VARCHAR(300) FOR BIT DATA" :=
  (string_toSql_thresholds 300).2.2.2.1 (by norm_num) (by norm_num)

/-- C9: the fractional-seconds precision of the timestamp type is clamped
to `[0,6]`: `toSql` yields `TIMESTAMP` or `TIMESTAMP(n)` with
`1 ≤ n ≤ 6`, a negative length behaves like `0` and a length above 6 like
`6`, and the stringification format carries at most 6 fractional
digits. -/
theorem date_toSql_fsp_clamped (length : Int) :
    (DATE_toSql length = "TIMESTAMP" ∨
      ∃ n : Int, 1 ≤ n ∧ n ≤ 6 ∧ DATE_toSql length = "TIMESTAMP(" ++ toString n ++ ")") ∧
    (length < 0 → DATE_toSql length = DATE_toSql 0) ∧
    (6 < length → DATE_toSql length = DATE_toSql 6) ∧
    (DATE_formatString length).data.count 'S' ≤ 6 := by
  refine ⟨?_, fun h => ?_, fun h => ?_, ?_⟩
  · by_cases h0 : clampFsp length = 0
    · left; simp [DATE_toSql, h0]
    · right
      refine ⟨clampFsp length, ?_, ?_, by simp [DATE_toSql, h0]⟩
      · unfold clampFsp at h0 ⊢
        split_ifs at h0 ⊢ with hA hB
        all_goals omega
      · unfold clampFsp at h0 ⊢
        split_ifs at h0 ⊢ with hA hB
        all_goals omega
  · have hc : clampFsp length = 0 := by
      unfold clampFsp; split_ifs
      all_goals omega
    have hc0 : clampFsp 0 = 0 := by norm_num [clampFsp]
    simp [DATE_toSql, hc, hc0]
  · have hc : clampFsp length = 6 := by
      unfold clampFsp; split_ifs
      all_goals omega
    have hc6 : clampFsp 6 = 6 := by norm_num [clampFsp]
    simp [DATE_toSql, hc, hc6]
  · unfold DATE_formatString DATE_formatChars
    split_ifs with h
    · have hbase : List.count 'S' "YYYY-MM-DD HH:mm:ss".data = 0 := by decide
      simp [List.count_append, List.count_cons, List.count_replicate, hbase]
    · decide

/-- Witness for `date_toSql_fsp_clamped`: a negative precision behaves
like `0` and a precision of `9` like `6`. -/
theorem date_toSql_fsp_clamped_w :
    DATE_toSql (-3) = DATE_toSql 0 ∧ DATE_toSql 9 = DATE_toSql 6 :=
  ⟨(date_toSql_fsp_clamped (-3)).2.1 (by norm_num),
   (date_toSql_fsp_clamped 9).2.2.1 (by norm_num)⟩
